import Mathlib

/-!
Verification of the diagramik agent core (backend/agent/src/agent) against its
specification. Shallow embedding: the pure validator logic, the generator retry
loop, the router dispatch, the orchestrator control flow, the tool-result
extraction step and the conversation-history round-trip are translated into
executable Lean definitions, and the spec's claims are settled as theorems.
-/

namespace PyStr

/-- Whitespace characters stripped by Python `str.strip` (ASCII set). -/
def isWs (c : Char) : Bool :=
  c = ' ' || c = '\t' || c = '\n' || c = '\r' || c = '\x0b' || c = '\x0c'

/-- Strip leading and trailing whitespace from a character list. -/
def stripChars (cs : List Char) : List Char :=
  ((cs.dropWhile isWs).reverse.dropWhile isWs).reverse

/-- Model of Python `str.strip()`. -/
def strip (s : String) : String := String.mk (stripChars s.data)

/-- Split a character list on a newline character, keeping empty segments
(model of Python `str.split("\n")`). -/
def splitLinesAux (cur : List Char) : List Char → List (List Char)
  | [] => [cur.reverse]
  | c :: rest =>
    if c = '\n' then cur.reverse :: splitLinesAux [] rest
    else splitLinesAux (c :: cur) rest

/-- Model of Python `code.split("\n")`. -/
def splitLines (s : String) : List String :=
  (splitLinesAux [] s.data).map String.mk

/-- Model of Python `str.lower()` (ASCII case folding). -/
def lower (s : String) : String := String.mk (s.data.map Char.toLower)

/-- Substring occurrence over character lists. -/
def containsSub (needle : List Char) : List Char → Bool
  | [] => needle.isEmpty
  | c :: rest => needle.isPrefixOf (c :: rest) || containsSub needle rest

/-- Model of Python `pat in s` for strings. -/
def contains (s pat : String) : Bool := containsSub pat.data s.data

/-- Model of Python `s.startswith(pre)`. -/
def startsWith (s pre : String) : Bool := pre.data.isPrefixOf s.data

/-- Model of Python `s.count(c)` for a single character. -/
def countChar (s : String) (c : Char) : Nat := s.data.count c

end PyStr

/-- A single apostrophe character, used to build source-faithful messages. -/
def apos : String := String.mk [Char.ofNat 39]

/-- `ValidationResult` from core/validators.py: outcome of a structural check. -/
structure ValidationResult where
  is_valid : Bool
  errors : List String := []
  warnings : List String := []
deriving Repr, DecidableEq

/-- `ValidationResult.get_feedback`: errors block then warnings block, or
"Code is valid" when both lists are empty. -/
def ValidationResult.get_feedback (v : ValidationResult) : String :=
  let ls : List String :=
    (if v.errors.isEmpty then [] else "ERRORS:" :: v.errors.map (fun e => "  - " ++ e)) ++
    (if v.warnings.isEmpty then [] else "WARNINGS:" :: v.warnings.map (fun w => "  - " ++ w))
  if ls.isEmpty then "Code is valid" else String.intercalate "\n" ls

namespace PythonCodeValidator

/-- `PythonCodeValidator.FORBIDDEN_KEYWORDS`: substrings rejected as errors. -/
def FORBIDDEN_KEYWORDS : List String :=
  ["import ", "from ", "__import__", "eval(", "exec(", "compile(", "open(", "file("]

/-- `PythonCodeValidator.DANGEROUS_MODULES`: substrings rejected as errors. -/
def DANGEROUS_MODULES : List String :=
  ["os.", "sys.", "subprocess", "pathlib", "__builtins__", "__globals__", "__locals__"]

/-- Outcome of Python `ast.parse` raising `SyntaxError`: message and line. -/
structure PySyntaxError where
  msg : String
  lineno : Nat
deriving Repr, DecidableEq

/-- Error text for a forbidden keyword hit. -/
def forbiddenKeywordError (kw : String) : String :=
  "Code contains forbidden keyword: " ++ kw ++ ". Imports are handled externally."

/-- Error text for a dangerous module reference. -/
def dangerousModuleError (m : String) : String :=
  "Code contains dangerous module reference: " ++ m

/-- Error text for a `with ` occurrence. -/
def withStatementError : String :=
  "Code contains " ++ apos ++ "with" ++ apos ++
    " statement. Diagram context manager is handled externally."

/-- Error text for a parse failure. -/
def syntaxErrorMsg (e : PySyntaxError) : String :=
  "Syntax error: " ++ e.msg ++ " at line " ++ toString e.lineno

/-- Warning text when no edge operator is present. -/
def noEdgesWarning : String :=
  "No edge connections found (>> operator or Edge() calls). " ++
    "Diagram may not show relationships between nodes."

/-- Warning text when no assignment is present. -/
def noAssignmentsWarning : String :=
  "No variable assignments found. Are nodes being created?"

/-- `PythonCodeValidator.validate` (validators.py lines 68-124). `parse` is the
oracle for the external `ast.parse` call: `some e` models a `SyntaxError`.
All other checks are plain substring searches over the raw code text. -/
def validate (code : String) (parse : String → Option PySyntaxError) : ValidationResult :=
  if PyStr.strip code = "" then
    { is_valid := false, errors := ["Code is empty"], warnings := [] }
  else
    let kwErrors := FORBIDDEN_KEYWORDS.filterMap fun kw =>
      if PyStr.contains code kw then some (forbiddenKeywordError kw) else none
    let modErrors := DANGEROUS_MODULES.filterMap fun m =>
      if PyStr.contains code m then some (dangerousModuleError m) else none
    let withErrors :=
      if PyStr.contains (PyStr.lower code) "with " then [withStatementError] else []
    let synErrors :=
      match parse code with
      | some e => [syntaxErrorMsg e]
      | none => []
    let errors := kwErrors ++ modErrors ++ withErrors ++ synErrors
    let has_edges := PyStr.contains code ">>" || PyStr.contains code "Edge("
    let edgeWarnings := if has_edges then [] else [noEdgesWarning]
    let assignWarnings :=
      if PyStr.countChar code '=' = 0 then [noAssignmentsWarning] else []
    { is_valid := errors.isEmpty
      errors := errors
      warnings := edgeWarnings ++ assignWarnings }

end PythonCodeValidator

namespace MermaidCodeValidator

/-- `MermaidCodeValidator.DIAGRAM_TYPES`. -/
def DIAGRAM_TYPES : List String :=
  ["flowchart", "graph", "sequenceDiagram", "classDiagram", "stateDiagram",
   "erDiagram", "gantt", "pie", "journey", "gitGraph"]

/-- Error text when the first non-blank line declares no diagram type. -/
def typeDeclarationError : String :=
  "First line must declare diagram type. Valid types: " ++
    String.intercalate ", " DIAGRAM_TYPES

/-- `[line.strip() for line in code.split("\n") if line.strip()]`. -/
def nonBlankLines (code : String) : List String :=
  ((PyStr.splitLines code).map PyStr.strip).filter (fun l => l ≠ "")

/-- Arrow tokens searched for by `_validate_flowchart`. -/
def FLOWCHART_ARROWS : List String := ["-->", "---", "-.->", "==>", "->", "~~>"]

/-- An opening bracket followed (on the same line) by a closing one; one
alternative of the node-definition regular-expression search. -/
def lineHasBracketPair (o c : Char) : List Char → Bool
  | [] => false
  | x :: rest => (x = o && rest.contains c) || lineHasBracketPair o c rest

/-- The node-definition search of `_validate_flowchart`: some newline-free
segment has a bracket, parenthesis or brace pair. -/
def hasNodeDefs (code : String) : Bool :=
  (PyStr.splitLines code).any fun l =>
    lineHasBracketPair '[' ']' l.data || lineHasBracketPair '(' ')' l.data ||
      lineHasBracketPair '\x7b' '\x7d' l.data

def noArrowsWarning : String := "No arrow connections found in flowchart"

def noNodesWarning : String :=
  "No node definitions found (brackets, parentheses, braces)"

/-- `_validate_flowchart`: warnings appended for flowchart/graph kinds. -/
def validate_flowchart_warnings (code : String) : List String :=
  (if FLOWCHART_ARROWS.any (fun a => PyStr.contains code a) then []
   else [noArrowsWarning]) ++
  (if hasNodeDefs code then [] else [noNodesWarning])

/-- Arrow tokens searched for by `_validate_sequence`. -/
def SEQUENCE_ARROWS : List String := ["->", "->>", "-->", "-->>"]

def noParticipantsWarning : String :=
  "No participants or message arrows found in sequence diagram"

/-- `_validate_sequence`: warnings appended for the sequenceDiagram kind. -/
def validate_sequence_warnings (code : String) : List String :=
  let has_participants := PyStr.contains (PyStr.lower code) "participant "
  let has_arrows := SEQUENCE_ARROWS.any (fun a => PyStr.contains code a)
  if has_participants || has_arrows then [] else [noParticipantsWarning]

/-- Relationship tokens searched for by `_validate_er`. -/
def ER_RELATIONSHIP_SYMBOLS : List String :=
  ["\x7do", "\x7d|", "||", "|o", "o\x7b"]

/-- A regular-expression word character (ASCII). -/
def isWordChar (c : Char) : Bool := c.isAlphanum || c = '_'

/-- After a word character: optional whitespace then an opening brace. -/
def braceAfterSpaces : List Char → Bool
  | [] => false
  | c :: rest =>
    if c = '\x7b' then true
    else if PyStr.isWs c then braceAfterSpaces rest
    else false

/-- The entity-definition search of `_validate_er`: a word character,
optional whitespace, then an opening brace. -/
def hasEntityDefs : List Char → Bool
  | [] => false
  | c :: rest => (isWordChar c && braceAfterSpaces rest) || hasEntityDefs rest

def noEntitiesWarning : String := "No entity definitions found (entity \x7b)"

def noRelationshipsWarning : String := "No relationship symbols found"

/-- `_validate_er`: warnings appended for the erDiagram kind. -/
def validate_er_warnings (code : String) : List String :=
  (if hasEntityDefs code.data then [] else [noEntitiesWarning]) ++
  (if ER_RELATIONSHIP_SYMBOLS.any (fun r => PyStr.contains code r) then []
   else [noRelationshipsWarning])

def onlyTypeDeclWarning : String := "Diagram only has type declaration, no content"

/-- `MermaidCodeValidator.validate` (validators.py lines 150-204). Every error
path returns immediately, so after a diagram type is found only warnings are
collected and the final errors list is empty. -/
def validate (code : String) : ValidationResult :=
  if PyStr.strip code = "" then
    { is_valid := false, errors := ["Code is empty"], warnings := [] }
  else
    match nonBlankLines code with
    | [] => { is_valid := false, errors := ["Code contains no non-empty lines"], warnings := [] }
    | first :: rest =>
      let first_line := PyStr.lower first
      match DIAGRAM_TYPES.find? (fun d => PyStr.startsWith first_line (PyStr.lower d)) with
      | none =>
        { is_valid := false, errors := [typeDeclarationError], warnings := [] }
      | some dtype =>
        let typeWarnings :=
          if dtype = "flowchart" || dtype = "graph" then validate_flowchart_warnings code
          else if dtype = "sequenceDiagram" then validate_sequence_warnings code
          else if dtype = "erDiagram" then validate_er_warnings code
          else []
        let lenWarnings :=
          if (first :: rest).length < 2 then [onlyTypeDeclWarning] else []
        let errors : List String := []
        { is_valid := errors.isEmpty
          errors := errors
          warnings := typeWarnings ++ lenWarnings }

end MermaidCodeValidator

/-- LM output of one `PythonDiagramsSignature` prediction (python_gen.py). -/
structure PythonPrediction where
  diagram_title : String
  python_code : String
  reasoning : String
  validation_notes : String
deriving Repr, DecidableEq

/-- `PythonGenerationResult` (python_gen.py lines 13-26). -/
structure PythonGenerationResult where
  diagram_title : String
  python_code : String
  reasoning : String
  validation_notes : String
  validation_result : ValidationResult
  is_valid : Bool
deriving Repr, DecidableEq

namespace PythonDiagramsGenerator

/-- `PythonDiagramsGenerator.forward` (python_gen.py lines 77-127): validate
the predicted code and package the result. The LM call is the oracle `pred`;
the prompt enhancement with prior feedback only affects what the oracle is
asked, which the retry loop models by handing the feedback to the oracle. -/
def forward (parse : String → Option PythonCodeValidator.PySyntaxError)
    (pred : PythonPrediction) : PythonGenerationResult :=
  let validation_result := PythonCodeValidator.validate pred.python_code parse
  { diagram_title := pred.diagram_title
    python_code := pred.python_code
    reasoning := pred.reasoning
    validation_notes := pred.validation_notes
    validation_result := validation_result
    is_valid := validation_result.is_valid }

/-- The deterministic sequence of attempt results induced by the LM oracle
`predict` (call index, feedback handed to that call): attempt 0 gets no
feedback, attempt `n+1` gets the feedback of attempt `n`, exactly as the
retry loop builds it while attempts keep failing. -/
def attempt (predict : Nat → Option String → PythonPrediction)
    (parse : String → Option PythonCodeValidator.PySyntaxError) : Nat → PythonGenerationResult
  | 0 => forward parse (predict 0 none)
  | n + 1 =>
    forward parse
      (predict (n + 1) (some ((attempt predict parse n).validation_result.get_feedback)))

/-- The `for attempt in range(max_retries)` loop of `generate_with_retry`
(python_gen.py lines 156-161), carrying the previous result, the index of the
next `forward` call and the remaining retry budget; returns the final result
and the total number of `forward` calls made. -/
def retryLoop (predict : Nat → Option String → PythonPrediction)
    (parse : String → Option PythonCodeValidator.PySyntaxError) :
    PythonGenerationResult → Nat → Nat → PythonGenerationResult × Nat
  | prev, callIdx, 0 => (prev, callIdx)
  | prev, callIdx, remaining + 1 =>
    let result :=
      forward parse (predict callIdx (some prev.validation_result.get_feedback))
    if result.is_valid then (result, callIdx + 1)
    else retryLoop predict parse result (callIdx + 1) remaining

/-- `PythonDiagramsGenerator.generate_with_retry` (python_gen.py lines
129-164): first attempt without feedback, then up to `max_retries` retries,
each fed the previous attempt's validation feedback; the last result is
returned even when invalid. Also returns the number of `forward` calls. -/
def generate_with_retry (predict : Nat → Option String → PythonPrediction)
    (parse : String → Option PythonCodeValidator.PySyntaxError)
    (max_retries : Nat) : PythonGenerationResult × Nat :=
  let result := forward parse (predict 0 none)
  if result.is_valid then (result, 1)
  else retryLoop predict parse result 1 max_retries

end PythonDiagramsGenerator

/-- LM output of one `MermaidSignature` prediction (mermaid_gen.py). -/
structure MermaidPrediction where
  diagram_title : String
  diagram_type : String
  mermaid_code : String
  reasoning : String
  validation_notes : String
deriving Repr, DecidableEq

/-- `MermaidGenerationResult` (mermaid_gen.py). -/
structure MermaidGenerationResult where
  diagram_title : String
  diagram_type : String
  mermaid_code : String
  reasoning : String
  validation_notes : String
  validation_result : ValidationResult
  is_valid : Bool
deriving Repr, DecidableEq

namespace MermaidGenerator

/-- `MermaidGenerator.forward` (mermaid_gen.py lines 81-131): validate the
predicted Mermaid code and package the result; the LM call is the oracle. -/
def forward (pred : MermaidPrediction) : MermaidGenerationResult :=
  let validation_result := MermaidCodeValidator.validate pred.mermaid_code
  { diagram_title := pred.diagram_title
    diagram_type := pred.diagram_type
    mermaid_code := pred.mermaid_code
    reasoning := pred.reasoning
    validation_notes := pred.validation_notes
    validation_result := validation_result
    is_valid := validation_result.is_valid }

/-- Attempt sequence induced by the LM oracle, as for the Python generator. -/
def attempt (predict : Nat → Option String → MermaidPrediction) : Nat → MermaidGenerationResult
  | 0 => forward (predict 0 none)
  | n + 1 =>
    forward (predict (n + 1) (some ((attempt predict n).validation_result.get_feedback)))

/-- The retry loop of `MermaidGenerator.generate_with_retry` (mermaid_gen.py
lines 160-165); returns the final result and the number of `forward` calls. -/
def retryLoop (predict : Nat → Option String → MermaidPrediction) :
    MermaidGenerationResult → Nat → Nat → MermaidGenerationResult × Nat
  | prev, callIdx, 0 => (prev, callIdx)
  | prev, callIdx, remaining + 1 =>
    let result := forward (predict callIdx (some prev.validation_result.get_feedback))
    if result.is_valid then (result, callIdx + 1)
    else retryLoop predict result (callIdx + 1) remaining

/-- `MermaidGenerator.generate_with_retry` (mermaid_gen.py lines 133-168). -/
def generate_with_retry (predict : Nat → Option String → MermaidPrediction)
    (max_retries : Nat) : MermaidGenerationResult × Nat :=
  let result := forward (predict 0 none)
  if result.is_valid then (result, 1)
  else retryLoop predict result 1 max_retries

end MermaidGenerator

namespace DiagramRouter

/-- `DiagramRouter.TOOL_ROUTING` (agent.py lines 59-83). -/
def TOOL_ROUTING : List (String × List String) :=
  [("draw_technical_diagram",
     ["technical", "architecture", "cloud", "infrastructure", "system"]),
   ("draw_mermaid",
     ["flow", "sequence", "flowchart", "process", "state", "class"]),
   ("fallback",
     ["clarify", "error", "unknown", "cannot", "unable", "help"])]

/-- `keyword_to_tool` built in `DiagramRouter.__init__` (agent.py lines
96-102): each keyword maps to its tool name; keywords are pairwise distinct
so insertion order is irrelevant. -/
def keyword_to_tool : List (String × String) :=
  TOOL_ROUTING.flatMap fun entry => entry.2.map fun kw => (kw, entry.1)

/-- Dictionary lookup `self.keyword_to_tool.get(diagram_type, ...)`. -/
def lookupKeyword (kw : String) : Option String :=
  (keyword_to_tool.find? fun e => e.1 = kw).map (·.2)

/-- `DiagramRouter.forward` (agent.py lines 117-142), returning the name of
the specialist the request is dispatched to. The classifier call is the
oracle `classify`; the source has no exception handling around it, so a
failing call propagates (`Except.error`). On success the lowercased label is
looked up in `keyword_to_tool` with `"fallback"` as the default. -/
def forward (classify : Except String String) : Except String String :=
  match classify with
  | .error e => .error e
  | .ok label =>
    let diagram_type := PyStr.lower label
    .ok ((lookupKeyword diagram_type).getD "fallback")

end DiagramRouter

/-- The closed label set of `RouterResult.tool_choice` (core/router.py). -/
inductive ToolChoice where
  | python_diagrams
  | mermaid
  | clarify
deriving Repr, DecidableEq

/-- `RouterResult` (core/router.py lines 12-17). -/
structure RouterResult where
  tool_choice : ToolChoice
  reasoning : String
  clarification_question : Option String := none
deriving Repr, DecidableEq

/-- Raw LM output of the `DiagramRouterSignature` predictor, before the
pydantic `Literal` validation performed by the `RouterResult` constructor. -/
structure RouterPrediction where
  tool_choice : String
  reasoning : String
  clarification_question : Option String
deriving Repr, DecidableEq

namespace DiagramRouterModule

/-- The pydantic `Literal["python_diagrams", "mermaid", "clarify"]` check: an
exact string match, no coercion. -/
def parseToolChoice : String → Option ToolChoice
  | "python_diagrams" => some .python_diagrams
  | "mermaid" => some .mermaid
  | "clarify" => some .clarify
  | _ => none

/-- `DiagramRouterModule.forward` (core/router.py lines 42-75). The predictor
call is the oracle; the source has no exception handling, so a failing call
propagates, and a `tool_choice` outside the `Literal` set makes the
`RouterResult` constructor raise a validation error, also uncaught. The
clarification question is kept only for the `clarify` choice. -/
def forward (predictOut : Except String RouterPrediction) : Except String RouterResult :=
  match predictOut with
  | .error e => .error e
  | .ok p =>
    match parseToolChoice p.tool_choice with
    | none =>
      .error ("validation error: tool_choice must be one of python_diagrams, " ++
        "mermaid, clarify; got " ++ p.tool_choice)
    | some tc =>
      .ok { tool_choice := tc
            reasoning := p.reasoning
            clarification_question :=
              if tc = ToolChoice.clarify then p.clarification_question else none }

end DiagramRouterModule

/-- A JSON value, the shape of `json.loads` output and of the serialized
history payload. -/
inductive Json where
  | null
  | bool (b : Bool)
  | num (n : Int)
  | str (s : String)
  | arr (items : List Json)
  | obj (fields : List (String × Json))

/-- Python `"uri" in xs` for a JSON array: equality against each element,
true only for the string "uri". -/
def jsonArrHasUri : List Json → Bool
  | [] => false
  | .str s :: rest => s = "uri" || jsonArrHasUri rest
  | _ :: rest => jsonArrHasUri rest

/-- Python `"uri" in result_json`: key membership for an object, element
membership for an array, substring test for a string, and a `TypeError`
(modelled as `Except.error`) for numbers, booleans and null. -/
def uriMembership : Json → Except Unit Bool
  | .obj fields => .ok (fields.any fun kv => kv.1 = "uri")
  | .arr items => .ok (jsonArrHasUri items)
  | .str s => .ok (PyStr.contains s "uri")
  | _ => .error ()

namespace PromptSerialization

/-- Modelled from the spec: the role of one turn in the conversation history
(§3 Turn), as preserved by the history serialization format (§6). The
fast_agent message type itself is not part of this repository's sources. -/
inductive Role where
  | user
  | assistant
deriving Repr, DecidableEq

/-- Modelled from the spec: a nested content block of a tool result (§6
"including nested content blocks"). -/
inductive ContentBlock where
  | text (s : String)
deriving Repr, DecidableEq

/-- Modelled from the spec: a recorded tool invocation `{toolName, arguments}`
(§3, §6). Argument values are carried as strings. -/
structure ToolInvocation where
  name : String
  arguments : List (String × String)
deriving Repr, DecidableEq

/-- Modelled from the spec: a resolved tool result with its content blocks. -/
structure ToolResult where
  content : List ContentBlock
deriving Repr, DecidableEq

/-- Modelled from the spec: one `Turn` of the conversation history (§3):
role, optional free text, tool invocations and tool results keyed by call id,
in insertion order. -/
structure Turn where
  role : Role
  text : Option String
  tool_calls : List (String × ToolInvocation)
  tool_results : List (String × ToolResult)
deriving Repr, DecidableEq

def encodeRole : Role → Json
  | .user => .str "user"
  | .assistant => .str "assistant"

def decodeRole : Json → Option Role
  | .str "user" => some .user
  | .str "assistant" => some .assistant
  | _ => none

def encodeText : Option String → Json
  | none => .null
  | some s => .str s

def decodeText : Json → Option (Option String)
  | .null => some none
  | .str s => some (some s)
  | _ => none

def encodeStrPairs (l : List (String × String)) : Json :=
  .obj (l.map fun kv => (kv.1, .str kv.2))

def decodeStrPair : String × Json → Option (String × String)
  | (k, .str v) => some (k, v)
  | _ => none

/-- Decode every field of a JSON object, failing if any field fails. -/
def decodePairs {α : Type} (dec : String × Json → Option α) :
    List (String × Json) → Option (List α)
  | [] => some []
  | kv :: rest =>
    match dec kv with
    | none => none
    | some a =>
      match decodePairs dec rest with
      | none => none
      | some as => some (a :: as)

/-- Decode every element of a JSON array, failing if any element fails. -/
def decodeList {α : Type} (dec : Json → Option α) : List Json → Option (List α)
  | [] => some []
  | j :: rest =>
    match dec j with
    | none => none
    | some a =>
      match decodeList dec rest with
      | none => none
      | some as => some (a :: as)

def encodeContent : ContentBlock → Json
  | .text s => .obj [("type", .str "text"), ("text", .str s)]

def decodeContent : Json → Option ContentBlock
  | .obj [("type", .str "text"), ("text", .str s)] => some (.text s)
  | _ => none

def encodeInvocation (i : ToolInvocation) : Json :=
  .obj [("name", .str i.name), ("arguments", encodeStrPairs i.arguments)]

def decodeInvocation : Json → Option ToolInvocation
  | .obj [("name", .str n), ("arguments", .obj args)] =>
    (decodePairs decodeStrPair args).map fun as => ⟨n, as⟩
  | _ => none

def encodeResult (r : ToolResult) : Json :=
  .obj [("content", .arr (r.content.map encodeContent))]

def decodeResult : Json → Option ToolResult
  | .obj [("content", .arr items)] => (decodeList decodeContent items).map ToolResult.mk
  | _ => none

def encodeTurn (t : Turn) : Json :=
  .obj [("role", encodeRole t.role),
        ("text", encodeText t.text),
        ("tool_calls", .obj (t.tool_calls.map fun kv => (kv.1, encodeInvocation kv.2))),
        ("tool_results", .obj (t.tool_results.map fun kv => (kv.1, encodeResult kv.2)))]

def decodeTurn : Json → Option Turn
  | .obj [("role", r), ("text", t), ("tool_calls", .obj cs), ("tool_results", .obj rs)] =>
    match decodeRole r, decodeText t,
        decodePairs (fun kv => (decodeInvocation kv.2).map fun i => (kv.1, i)) cs,
        decodePairs (fun kv => (decodeResult kv.2).map fun x => (kv.1, x)) rs with
    | some role, some text, some calls, some results =>
      some ⟨role, text, calls, results⟩
    | _, _, _, _ => none
  | _ => none

/-- Modelled from the spec: `serialize` — fast_agent's
`prompt_serialization.to_json` is not in this repository's sources; per §4.5
and §6 it must record, for every turn, role, free text, tool invocations and
tool results including nested content blocks. -/
def to_json (h : List Turn) : Json := .arr (h.map encodeTurn)

/-- Modelled from the spec: `load` — fast_agent's
`prompt_serialization.from_json` is not in this repository's sources; it
consumes exactly the format `to_json` produces and fails (`none`) on
malformed input. -/
def from_json : Json → Option (List Turn)
  | .arr items => decodeList decodeTurn items
  | _ => none

end PromptSerialization

/-- `AgentResult` (agent_orchestrator.py lines 22-30). -/
structure AgentResult where
  diagram_title : String
  media_uri : String
  history_json : String
deriving Repr, DecidableEq

/-- The exceptions that can escape the orchestrator: the declared taxonomy of
exceptions.py (`ClarificationNeeded`, `CodeGenerationError` carrying the
validator's error list, `MCPToolError`), plus the undeclared `AttributeError`
that `format_conversation_history` lets propagate on a JSON-parseable but
malformed history (its `except` clause catches only `JSONDecodeError` and
`TypeError`, not the `AttributeError` raised by `entry.get` on a non-dict
entry). -/
inductive AgentError where
  | clarificationNeeded (question : String)
  | codeGenerationError (message : String) (validation_errors : List String)
  | mcpToolError (message : String)
  | attributeError
deriving Repr, DecidableEq

/-- Python truthiness of a `json.loads` value (`if not history`). -/
def jsonTruthy : Json → Bool
  | .null => false
  | .bool b => b
  | .num n => n != 0
  | .str s => s ≠ ""
  | .arr items => !items.isEmpty
  | .obj fields => !fields.isEmpty

/-- `entry.get(key, default)`-style lookup in a parsed JSON object. -/
def jsonLookup (kvs : List (String × Json)) (k : String) : Option Json :=
  (kvs.find? fun kv => kv.1 = k).map (·.2)

/-- The `for entry in history` loop of `format_conversation_history`
(utils.py lines 26-29): each entry must be a dict, whose "role"/"content"
values (defaults "unknown"/"") are rendered through Python `str()` — the
oracle `pyStr` — into a `role: content` line. A non-dict entry raises
`AttributeError` at `entry.get`, modelled as `Except.error ()`; the
surrounding `except` clause does not catch it. -/
def formatEntries (pyStr : Json → String) : List Json → Except Unit (List String)
  | [] => .ok []
  | Json.obj kvs :: rest =>
    let role := match jsonLookup kvs "role" with
      | some v => pyStr v
      | none => "unknown"
    let content := match jsonLookup kvs "content" with
      | some v => pyStr v
      | none => ""
    (match formatEntries pyStr rest with
      | .error e => .error e
      | .ok ls => .ok ((role ++ ": " ++ content) :: ls))
  | _ :: _ => .error ()

/-- `format_conversation_history` (utils.py lines 7-33). `loads` is the
oracle for `json.loads` (`none` modelling `JSONDecodeError`, which is
caught); an empty/absent history string and a falsy parse yield "".
Iterating a non-zero number or `true` raises `TypeError`, which the
`except (json.JSONDecodeError, TypeError)` clause catches, yielding "";
but iterating a non-empty string or dict yields strings, and any non-dict
entry of a list, hits `entry.get` and raises an UNCAUGHT `AttributeError`
(`Except.error ()`). -/
def format_conversation_history (loads : String → Option Json)
    (pyStr : Json → String) : Option String → Except Unit String
  | none => .ok ""
  | some history_json =>
    if history_json = "" then .ok ""
    else
      match loads history_json with
      | none => .ok ""
      | some history =>
        if jsonTruthy history = false then .ok ""
        else
          match history with
          | .arr entries => (formatEntries pyStr entries).map (String.intercalate "\n")
          | .obj _ => .error ()
          | .str _ => .error ()
          | _ => .ok ""

/-- The external render-tool invocation built in step 3 of the orchestrator:
tool name plus the `{"title": ..., "code": ...}` parameters. -/
structure ToolCallSpec where
  tool_name : String
  title : String
  code : String
deriving Repr, DecidableEq

namespace AgentOrchestrator

/-- History loading shared by both orchestrators (agent_orchestrator.py lines
122-142 and agent.py lines 419-427): when a previous-history string is present
and non-empty, `from_json` is tried and any load failure is swallowed,
falling back to a fresh empty history. `from_json` is the oracle for the
external fast_agent deserializer. -/
def loadPreviousHistory
    (from_json : String → Except String (List PromptSerialization.Turn)) :
    Option String → List PromptSerialization.Turn
  | none => []
  | some s =>
    if s = "" then []
    else
      match from_json s with
      | .ok msgs => msgs
      | .error _ => []

/-- First-match string lookup in a parsed JSON object, i.e. `dict.get`. -/
def lookupStr (kvs : List (String × String)) (k : String) : Option String :=
  (kvs.find? fun kv => kv.1 = k).map (·.2)

/-- Step 3 of the orchestrator (agent_orchestrator.py lines 120-165): run the
MCP tool call through FastAgent against the loaded history. The whole MCP
exchange is the oracle `mcp`, returning either a transport/remote error or
the parsed last tool result (a JSON object as string pairs) together with the
serialized updated history; any failure, including a missing `uri` in the
result (which makes the `AgentResult` constructor raise inside the `try`),
surfaces as `MCPToolError`. -/
def runTool (spec : ToolCallSpec) (fallback_title : String)
    (history : List PromptSerialization.Turn)
    (mcp : List PromptSerialization.Turn → ToolCallSpec →
      Except String (List (String × String) × String)) :
    Except AgentError AgentResult :=
  match mcp history spec with
  | .error e =>
    .error (.mcpToolError ("Failed to call MCP tool " ++ spec.tool_name ++ ": " ++ e))
  | .ok (last_tool_result, history_json) =>
    match lookupStr last_tool_result "uri" with
    | some uri =>
      .ok { diagram_title := (lookupStr last_tool_result "title").getD fallback_title
            media_uri := uri
            history_json := history_json }
    | none =>
      .error (.mcpToolError ("Failed to call MCP tool " ++ spec.tool_name ++
        ": missing uri in tool result"))

/-- The orchestrator `agent` function (agent_orchestrator.py lines 40-165) as
a function of its oracles: the routing decision, the two generators' LM
oracles, the `ast.parse` oracle, the previous-history string with the
`json.loads`/`str()` oracles of the formatting step and the `from_json`
oracle of step 3, and the MCP exchange oracle. Alongside the
result-or-exception it returns the list of external tool invocations the run
performs, in order. The unguarded `format_conversation_history` call (line
74) runs first: its uncaught `AttributeError` fails the whole turn before
routing. Otherwise route `clarify` raises `ClarificationNeeded`; an invalid
final generation raises `CodeGenerationError` with the validator's errors and
performs no tool call; only a valid generation reaches `runTool`. The
formatted context string itself only feeds the router and generator LM
prompts, which are oracles here. -/
def agent (routing : RouterResult)
    (pyPredict : Nat → Option String → PythonPrediction)
    (mmPredict : Nat → Option String → MermaidPrediction)
    (parse : String → Option PythonCodeValidator.PySyntaxError)
    (previous_history_json : Option String)
    (loads : String → Option Json)
    (pyStr : Json → String)
    (from_json : String → Except String (List PromptSerialization.Turn))
    (mcp : List PromptSerialization.Turn → ToolCallSpec →
      Except String (List (String × String) × String)) :
    Except AgentError AgentResult × List ToolCallSpec :=
  match format_conversation_history loads pyStr previous_history_json with
  | .error _ => (.error .attributeError, [])
  | .ok _conversation_context =>
    match routing.tool_choice with
    | .clarify =>
      (.error (.clarificationNeeded
        (routing.clarification_question.getD "Please clarify your request")), [])
    | .python_diagrams =>
      let generation := (PythonDiagramsGenerator.generate_with_retry pyPredict parse 2).1
      if generation.is_valid then
        let spec : ToolCallSpec :=
          { tool_name := "draw_technical_diagram"
            title := generation.diagram_title
            code := generation.python_code }
        (runTool spec generation.diagram_title
          (loadPreviousHistory from_json previous_history_json) mcp, [spec])
      else
        (.error (.codeGenerationError "Failed to generate valid Python code after retries"
          generation.validation_result.errors), [])
    | .mermaid =>
      let generation := (MermaidGenerator.generate_with_retry mmPredict 2).1
      if generation.is_valid then
        let spec : ToolCallSpec :=
          { tool_name := "draw_mermaid"
            title := generation.diagram_title
            code := generation.mermaid_code }
        (runTool spec generation.diagram_title
          (loadPreviousHistory from_json previous_history_json) mcp, [spec])
      else
        (.error (.codeGenerationError "Failed to generate valid Mermaid code after retries"
          generation.validation_result.errors), [])

end AgentOrchestrator

/-- `_extract_tool_result_from_executed` (agent.py lines 212-248): scan the
turn's resolved tool-result strings in creation (insertion) order; skip
entries starting with "Error"; try to parse each as JSON (`parseJson` is the
oracle for `json.loads`, `none` modelling `JSONDecodeError`); return the
first parsed value containing a "uri" key. Python's `in` on a non-container
raises `TypeError`, which the `except json.JSONDecodeError` clause does not
catch; that propagation is the `Except.error` case. -/
def extract_tool_result_from_executed (parseJson : String → Option Json) :
    List (String × String) → Except Unit (Option Json)
  | [] => .ok none
  | (_, result_str) :: rest =>
    if PyStr.startsWith result_str "Error" then
      extract_tool_result_from_executed parseJson rest
    else
      match parseJson result_str with
      | none => extract_tool_result_from_executed parseJson rest
      | some result_json =>
        match uriMembership result_json with
        | .error _ => .error ()
        | .ok true => .ok (some result_json)
        | .ok false => extract_tool_result_from_executed parseJson rest

/-- Decidable form of "this entry is skipped by the extraction scan": it
starts with "Error", fails to parse, or parses to a value without a
"uri" key. -/
def skipsEntry (parseJson : String → Option Json) (entry : String × String) : Bool :=
  PyStr.startsWith entry.2 "Error" ||
    (match parseJson entry.2 with
     | none => true
     | some j =>
       match uriMembership j with
       | .ok false => true
       | _ => false)

/-- Fixture: an `ast.parse` oracle that always succeeds. -/
def parseOk : String → Option PythonCodeValidator.PySyntaxError := fun _ => none

/-- Fixture: syntactically valid diagrams code whose only flaw is the text
"WITH" inside a string literal, tripping the case-insensitive substring
screen. -/
def pyWithFalsePositive : String := "lb = ELB(\"Works WITH traffic\")\nlb >> lb"

/-- Fixture: diagrams code that passes every check of the Python validator. -/
def pyValidCode : String := "lb = ELB(\"lb\")\ndb = RDS(\"db\")\nlb >> db"

/-- Fixture: LM oracle whose Python code is always empty, hence invalid. -/
def predInvalidPy : Nat → Option String → PythonPrediction :=
  fun _ _ => { diagram_title := "T", python_code := "", reasoning := "r", validation_notes := "v" }

/-- Fixture: LM oracle that always produces valid Python diagrams code. -/
def predValidPy : Nat → Option String → PythonPrediction :=
  fun _ _ =>
    { diagram_title := "Web App", python_code := pyValidCode
      reasoning := "r", validation_notes := "v" }

/-- Fixture: LM oracle whose Mermaid code is always empty, hence invalid. -/
def predInvalidMm : Nat → Option String → MermaidPrediction :=
  fun _ _ =>
    { diagram_title := "T", diagram_type := "flowchart", mermaid_code := ""
      reasoning := "r", validation_notes := "v" }

/-- Fixture: LM oracle that always produces valid Mermaid flowchart code. -/
def predValidMm : Nat → Option String → MermaidPrediction :=
  fun _ _ =>
    { diagram_title := "Flow", diagram_type := "flowchart"
      mermaid_code := "flowchart TD\n  A --> B", reasoning := "r", validation_notes := "v" }

/-- Fixture: a routing decision for the Python diagrams path. -/
def routingPy : RouterResult :=
  { tool_choice := .python_diagrams, reasoning := "cloud architecture request" }

/-- Fixture: a routing decision for the Mermaid path. -/
def routingMm : RouterResult :=
  { tool_choice := .mermaid, reasoning := "flow request" }

/-- Fixture: a deserializer oracle that always fails (corrupt history). -/
def fromJsonFail : String → Except String (List PromptSerialization.Turn) :=
  fun _ => .error "Expecting value: line 1 column 1 (char 0)"

/-- Fixture: an MCP exchange oracle that succeeds with a rendered diagram. -/
def mcpOk : List PromptSerialization.Turn → ToolCallSpec →
    Except String (List (String × String) × String) :=
  fun _ _ => .ok ([("uri", "gs://bucket/diagram.png"), ("title", "Web App")], "[]")

/-- Fixture: the parsed value of a first tool-result payload with a uri. -/
def jsonUriFirst : Json := .obj [("uri", .str "gs://bucket/first.png")]

/-- Fixture: the parsed value of a second tool-result payload with a uri. -/
def jsonUriSecond : Json := .obj [("uri", .str "gs://bucket/second.png")]

/-- Fixture: the raw JSON text of the first tool result. -/
def sJsonFirst : String := "\x7b\"uri\": \"gs://bucket/first.png\"\x7d"

/-- Fixture: the raw JSON text of the second tool result. -/
def sJsonSecond : String := "\x7b\"uri\": \"gs://bucket/second.png\"\x7d"

/-- Fixture: a `json.loads` oracle agreeing with Python on the two payloads
above and failing on everything else. -/
def parseToolResults : String → Option Json := fun s =>
  if s = sJsonFirst then some jsonUriFirst
  else if s = sJsonSecond then some jsonUriSecond
  else none

/-- Fixture: a `json.loads` oracle agreeing with Python on the malformed
history payload "[5]" (a JSON list with an integer entry) and failing on
everything else. -/
def loadsMalformedHistory : String → Option Json := fun s =>
  if s = "[5]" then some (Json.arr [Json.num 5]) else none

/-- Fixture: a rendering oracle for Python `str()`; the crash behaviour of
the formatting step does not depend on it. -/
def pyStrDefault : Json → String := fun _ => ""

/-- Fixture: syntactically valid diagrams code whose only denylist hit is
`eval(` inside a comment. -/
def pyEvalInComment : String := "a = b  # do not eval(x)\na >> b"

/-- C5: every `ValidationResult` returned by `PythonCodeValidator.validate`
or `MermaidCodeValidator.validate` satisfies `is_valid = (errors = [])`; the
warnings list never affects `is_valid`, so a result with non-empty errors is
invalid and a result with only warnings is valid. -/
theorem C5_is_valid_iff_no_errors
    (code : String) (parse : String → Option PythonCodeValidator.PySyntaxError) :
    ((PythonCodeValidator.validate code parse).is_valid = true ↔
      (PythonCodeValidator.validate code parse).errors = []) ∧
    ((MermaidCodeValidator.validate code).is_valid = true ↔
      (MermaidCodeValidator.validate code).errors = []) := by
  constructor
  · unfold PythonCodeValidator.validate
    split
    · simp
    · simp [List.isEmpty_iff]
  · unfold MermaidCodeValidator.validate
    split
    · simp
    · split
      · simp
      · rename_i first rest heq
        cases hfind : List.find? (fun d => PyStr.startsWith (PyStr.lower first) (PyStr.lower d))
            MermaidCodeValidator.DIAGRAM_TYPES <;> simp [hfind]

/-- C6: `MermaidCodeValidator.validate` rejects blank code; when the first
non-blank line declares no known diagram kind it returns invalid with the
error listing the valid kinds; and when a kind is declared, the kind-specific
checks only ever add warnings (the errors list stays empty and the result is
valid) — e.g. a flowchart with no arrow token gets the no-arrows warning
while remaining valid. -/
theorem C6_mermaid_validate_structure (code : String) :
    (PyStr.strip code = "" →
      MermaidCodeValidator.validate code =
        { is_valid := false, errors := ["Code is empty"], warnings := [] }) ∧
    (∀ first rest, MermaidCodeValidator.nonBlankLines code = first :: rest →
      PyStr.strip code ≠ "" →
      (List.find? (fun d => PyStr.startsWith (PyStr.lower first) (PyStr.lower d))
          MermaidCodeValidator.DIAGRAM_TYPES = none →
        MermaidCodeValidator.validate code =
          { is_valid := false, errors := [MermaidCodeValidator.typeDeclarationError],
            warnings := [] }) ∧
      (∀ dtype,
        List.find? (fun d => PyStr.startsWith (PyStr.lower first) (PyStr.lower d))
            MermaidCodeValidator.DIAGRAM_TYPES = some dtype →
        (MermaidCodeValidator.validate code).is_valid = true ∧
        (MermaidCodeValidator.validate code).errors = []) ∧
      (∀ dtype,
        List.find? (fun d => PyStr.startsWith (PyStr.lower first) (PyStr.lower d))
            MermaidCodeValidator.DIAGRAM_TYPES = some dtype →
        (dtype = "flowchart" ∨ dtype = "graph") →
        MermaidCodeValidator.FLOWCHART_ARROWS.any (fun a => PyStr.contains code a) = false →
        MermaidCodeValidator.noArrowsWarning ∈ (MermaidCodeValidator.validate code).warnings)) := by
  constructor
  · intro h
    unfold MermaidCodeValidator.validate
    simp [h]
  · intro first rest hlines hne
    refine ⟨?_, ?_, ?_⟩
    · intro hfind
      unfold MermaidCodeValidator.validate
      simp [hne, hlines, hfind]
    · intro dtype hfind
      unfold MermaidCodeValidator.validate
      simp [hne, hlines, hfind]
    · intro dtype hfind hkind hnoarrow
      unfold MermaidCodeValidator.validate
      simp only [hne, hlines, hfind, if_neg]
      rcases hkind with h | h <;> subst h <;>
        simp [hne, MermaidCodeValidator.validate_flowchart_warnings, hnoarrow]

/-- A list with a member is not empty (Bool form). -/
theorem isEmpty_eq_false_of_mem {α : Type} {a : α} {l : List α} (h : a ∈ l) :
    l.isEmpty = false := by
  cases l with
  | nil => cases h
  | cons x t => rfl

/-- C7: for non-blank code, every denylisted construct present is reported
as an error making the result invalid — each forbidden-keyword substring hit
(import/from/eval/exec/compile/open/file), the case-insensitive `with `
resource-context-manager hit, each dangerous-module substring hit — and a
parse failure is an error naming the line number; while a missing edge
operator or missing assignment only ever produces warnings: with no denylist
hit and a successful parse the result is valid with an empty error list, the
corresponding warnings notwithstanding. -/
theorem C7_python_validator_error_warning_split
    (code : String) (parse : String → Option PythonCodeValidator.PySyntaxError)
    (hne : PyStr.strip code ≠ "") :
    (∀ kw ∈ PythonCodeValidator.FORBIDDEN_KEYWORDS, PyStr.contains code kw = true →
      PythonCodeValidator.forbiddenKeywordError kw ∈
          (PythonCodeValidator.validate code parse).errors ∧
        (PythonCodeValidator.validate code parse).is_valid = false) ∧
    (PyStr.contains (PyStr.lower code) "with " = true →
      PythonCodeValidator.withStatementError ∈
          (PythonCodeValidator.validate code parse).errors ∧
        (PythonCodeValidator.validate code parse).is_valid = false) ∧
    (∀ m ∈ PythonCodeValidator.DANGEROUS_MODULES, PyStr.contains code m = true →
      PythonCodeValidator.dangerousModuleError m ∈
          (PythonCodeValidator.validate code parse).errors ∧
        (PythonCodeValidator.validate code parse).is_valid = false) ∧
    (∀ e, parse code = some e →
      PythonCodeValidator.syntaxErrorMsg e ∈ (PythonCodeValidator.validate code parse).errors ∧
        (PythonCodeValidator.validate code parse).is_valid = false) ∧
    ((∀ kw ∈ PythonCodeValidator.FORBIDDEN_KEYWORDS, PyStr.contains code kw = false) →
      (∀ m ∈ PythonCodeValidator.DANGEROUS_MODULES, PyStr.contains code m = false) →
      PyStr.contains (PyStr.lower code) "with " = false →
      parse code = none →
      (PythonCodeValidator.validate code parse).errors = [] ∧
        (PythonCodeValidator.validate code parse).is_valid = true ∧
        (PyStr.contains code ">>" = false → PyStr.contains code "Edge(" = false →
          PythonCodeValidator.noEdgesWarning ∈ (PythonCodeValidator.validate code parse).warnings) ∧
        (PyStr.countChar code '=' = 0 →
          PythonCodeValidator.noAssignmentsWarning ∈
            (PythonCodeValidator.validate code parse).warnings)) := by
  refine ⟨?_, ?_, ?_, ?_, ?_⟩
  · intro kw hkw hc
    unfold PythonCodeValidator.validate
    simp only [hne, if_neg, if_false]
    have hmem : PythonCodeValidator.forbiddenKeywordError kw ∈
        PythonCodeValidator.FORBIDDEN_KEYWORDS.filterMap (fun kw =>
          if PyStr.contains code kw then some (PythonCodeValidator.forbiddenKeywordError kw)
          else none) :=
      List.mem_filterMap.mpr ⟨kw, hkw, by simp [hc]⟩
    have hfull : PythonCodeValidator.forbiddenKeywordError kw ∈
        (PythonCodeValidator.FORBIDDEN_KEYWORDS.filterMap (fun kw =>
          if PyStr.contains code kw then some (PythonCodeValidator.forbiddenKeywordError kw)
          else none)) ++
        (PythonCodeValidator.DANGEROUS_MODULES.filterMap (fun m =>
          if PyStr.contains code m then some (PythonCodeValidator.dangerousModuleError m)
          else none)) ++
        (if PyStr.contains (PyStr.lower code) "with "
          then [PythonCodeValidator.withStatementError] else []) ++
        (match parse code with
          | some e => [PythonCodeValidator.syntaxErrorMsg e]
          | none => []) := by
      simp [hmem]
    exact ⟨hfull, isEmpty_eq_false_of_mem hfull⟩
  · intro hc
    unfold PythonCodeValidator.validate
    simp only [hne, if_neg, if_false]
    rw [if_pos hc]
    have hfull : PythonCodeValidator.withStatementError ∈
        (PythonCodeValidator.FORBIDDEN_KEYWORDS.filterMap (fun kw =>
          if PyStr.contains code kw then some (PythonCodeValidator.forbiddenKeywordError kw)
          else none)) ++
        (PythonCodeValidator.DANGEROUS_MODULES.filterMap (fun m =>
          if PyStr.contains code m then some (PythonCodeValidator.dangerousModuleError m)
          else none)) ++
        [PythonCodeValidator.withStatementError] ++
        (match parse code with
          | some e => [PythonCodeValidator.syntaxErrorMsg e]
          | none => []) := by
      simp
    exact ⟨hfull, isEmpty_eq_false_of_mem hfull⟩
  · intro m hm hc
    unfold PythonCodeValidator.validate
    simp only [hne, if_neg, if_false]
    have hmem : PythonCodeValidator.dangerousModuleError m ∈
        PythonCodeValidator.DANGEROUS_MODULES.filterMap (fun m =>
          if PyStr.contains code m then some (PythonCodeValidator.dangerousModuleError m)
          else none) :=
      List.mem_filterMap.mpr ⟨m, hm, by simp [hc]⟩
    have hfull : PythonCodeValidator.dangerousModuleError m ∈
        (PythonCodeValidator.FORBIDDEN_KEYWORDS.filterMap (fun kw =>
          if PyStr.contains code kw then some (PythonCodeValidator.forbiddenKeywordError kw)
          else none)) ++
        (PythonCodeValidator.DANGEROUS_MODULES.filterMap (fun m =>
          if PyStr.contains code m then some (PythonCodeValidator.dangerousModuleError m)
          else none)) ++
        (if PyStr.contains (PyStr.lower code) "with "
          then [PythonCodeValidator.withStatementError] else []) ++
        (match parse code with
          | some e => [PythonCodeValidator.syntaxErrorMsg e]
          | none => []) := by
      simp [hmem]
    exact ⟨hfull, isEmpty_eq_false_of_mem hfull⟩
  · intro e he
    unfold PythonCodeValidator.validate
    simp only [hne, if_neg, if_false]
    rw [he]
    have hfull : PythonCodeValidator.syntaxErrorMsg e ∈
        (PythonCodeValidator.FORBIDDEN_KEYWORDS.filterMap (fun kw =>
          if PyStr.contains code kw then some (PythonCodeValidator.forbiddenKeywordError kw)
          else none)) ++
        (PythonCodeValidator.DANGEROUS_MODULES.filterMap (fun m =>
          if PyStr.contains code m then some (PythonCodeValidator.dangerousModuleError m)
          else none)) ++
        (if PyStr.contains (PyStr.lower code) "with "
          then [PythonCodeValidator.withStatementError] else []) ++
        [PythonCodeValidator.syntaxErrorMsg e] := by
      simp
    exact ⟨hfull, isEmpty_eq_false_of_mem hfull⟩
  · intro hkw hmod hwith hparse
    unfold PythonCodeValidator.validate
    simp only [hne, if_neg, if_false]
    rw [hparse]
    have h1 : PythonCodeValidator.FORBIDDEN_KEYWORDS.filterMap (fun kw =>
        if PyStr.contains code kw then some (PythonCodeValidator.forbiddenKeywordError kw)
        else none) = [] := by
      rw [List.filterMap_eq_nil_iff]
      intro kw hk
      simp [hkw kw hk]
    have h2 : PythonCodeValidator.DANGEROUS_MODULES.filterMap (fun m =>
        if PyStr.contains code m then some (PythonCodeValidator.dangerousModuleError m)
        else none) = [] := by
      rw [List.filterMap_eq_nil_iff]
      intro m hm
      simp [hmod m hm]
    refine ⟨by simp [h1, h2, hwith], by simp [h1, h2, hwith], ?_, ?_⟩
    · intro hgg hedge
      simp [h1, h2, hwith, hgg, hedge]
    · intro hassign
      simp [h1, h2, hwith, hassign]

/-- Witness for C7: code calling `eval` is rejected with the named forbidden
keyword error, a `with ` hit and a dangerous-module hit are rejected with
their named errors, and clean diagrams code is accepted with no errors. -/
theorem C7_witness :
    (PythonCodeValidator.forbiddenKeywordError "eval(" ∈
      (PythonCodeValidator.validate "a = eval(b)" parseOk).errors) ∧
    (PythonCodeValidator.validate "a = eval(b)" parseOk).is_valid = false ∧
    (PythonCodeValidator.withStatementError ∈
      (PythonCodeValidator.validate pyWithFalsePositive parseOk).errors) ∧
    (PythonCodeValidator.dangerousModuleError "os." ∈
      (PythonCodeValidator.validate "a = os.environ\na >> a" parseOk).errors) ∧
    (PythonCodeValidator.validate pyValidCode parseOk).errors = [] ∧
    (PythonCodeValidator.validate pyValidCode parseOk).is_valid = true := by
  have h1 := (C7_python_validator_error_warning_split "a = eval(b)" parseOk
    (by decide)).1 "eval(" (by decide) (by decide)
  have h2 := (C7_python_validator_error_warning_split pyWithFalsePositive parseOk
    (by decide)).2.1 (by decide)
  have h3 := (C7_python_validator_error_warning_split "a = os.environ\na >> a" parseOk
    (by decide)).2.2.1 "os." (by decide) (by decide)
  have h4 := (C7_python_validator_error_warning_split pyValidCode parseOk
    (by decide)).2.2.2.2 (by decide) (by decide) (by decide) rfl
  exact ⟨h1.1, h1.2, h2.1, h3.1, h4.1, h4.2.1⟩

/-- C10: the Python validator's denylist screening is plain substring search
over the raw code text: ANY occurrence of any denylisted substring — a
forbidden keyword, a dangerous-module reference, or `with ` matched
case-insensitively — makes the result invalid, wherever it occurs, including
inside a string literal or a comment; in particular the syntactically valid
fixture `pyWithFalsePositive`, whose only hit is inside a string literal, is
rejected for any parse outcome, and with a successful parse its sole error is
the `with`-statement error. -/
theorem C10_denylist_is_substring_screening :
    (∀ (code : String) (parse : String → Option PythonCodeValidator.PySyntaxError)
        (kw : String), kw ∈ PythonCodeValidator.FORBIDDEN_KEYWORDS →
      PyStr.contains code kw = true →
      (PythonCodeValidator.validate code parse).is_valid = false) ∧
    (∀ (code : String) (parse : String → Option PythonCodeValidator.PySyntaxError)
        (m : String), m ∈ PythonCodeValidator.DANGEROUS_MODULES →
      PyStr.contains code m = true →
      (PythonCodeValidator.validate code parse).is_valid = false) ∧
    (∀ (code : String) (parse : String → Option PythonCodeValidator.PySyntaxError),
      PyStr.contains (PyStr.lower code) "with " = true →
      (PythonCodeValidator.validate code parse).is_valid = false) ∧
    (∀ parse, (PythonCodeValidator.validate pyWithFalsePositive parse).is_valid = false) ∧
    ((PythonCodeValidator.validate pyWithFalsePositive parseOk).errors =
      [PythonCodeValidator.withStatementError]) := by
  have hwith : ∀ (code : String) (parse : String → Option PythonCodeValidator.PySyntaxError),
      PyStr.contains (PyStr.lower code) "with " = true →
      (PythonCodeValidator.validate code parse).is_valid = false := by
    intro code parse h
    unfold PythonCodeValidator.validate
    split
    · rfl
    · have hfull : PythonCodeValidator.withStatementError ∈
          (PythonCodeValidator.FORBIDDEN_KEYWORDS.filterMap (fun kw =>
            if PyStr.contains code kw then some (PythonCodeValidator.forbiddenKeywordError kw)
            else none)) ++
          (PythonCodeValidator.DANGEROUS_MODULES.filterMap (fun m =>
            if PyStr.contains code m then some (PythonCodeValidator.dangerousModuleError m)
            else none)) ++
          [PythonCodeValidator.withStatementError] ++
          (match parse code with
            | some e => [PythonCodeValidator.syntaxErrorMsg e]
            | none => []) := by
        simp
      exact isEmpty_eq_false_of_mem hfull
  refine ⟨?_, ?_, hwith, fun parse => hwith _ parse (by decide), by decide⟩
  · intro code parse kw hkwmem hc
    by_cases hs : PyStr.strip code = ""
    · simp [PythonCodeValidator.validate, hs]
    · unfold PythonCodeValidator.validate
      simp only [hs, if_neg, if_false]
      have hmem : PythonCodeValidator.forbiddenKeywordError kw ∈
          PythonCodeValidator.FORBIDDEN_KEYWORDS.filterMap (fun kw =>
            if PyStr.contains code kw then some (PythonCodeValidator.forbiddenKeywordError kw)
            else none) :=
        List.mem_filterMap.mpr ⟨kw, hkwmem, by simp [hc]⟩
      have hfull : PythonCodeValidator.forbiddenKeywordError kw ∈
          (PythonCodeValidator.FORBIDDEN_KEYWORDS.filterMap (fun kw =>
            if PyStr.contains code kw then some (PythonCodeValidator.forbiddenKeywordError kw)
            else none)) ++
          (PythonCodeValidator.DANGEROUS_MODULES.filterMap (fun m =>
            if PyStr.contains code m then some (PythonCodeValidator.dangerousModuleError m)
            else none)) ++
          (if PyStr.contains (PyStr.lower code) "with "
            then [PythonCodeValidator.withStatementError] else []) ++
          (match parse code with
            | some e => [PythonCodeValidator.syntaxErrorMsg e]
            | none => []) := by
        simp [hmem]
      exact isEmpty_eq_false_of_mem hfull
  · intro code parse m hmmem hc
    by_cases hs : PyStr.strip code = ""
    · simp [PythonCodeValidator.validate, hs]
    · unfold PythonCodeValidator.validate
      simp only [hs, if_neg, if_false]
      have hmem : PythonCodeValidator.dangerousModuleError m ∈
          PythonCodeValidator.DANGEROUS_MODULES.filterMap (fun m =>
            if PyStr.contains code m then some (PythonCodeValidator.dangerousModuleError m)
            else none) :=
        List.mem_filterMap.mpr ⟨m, hmmem, by simp [hc]⟩
      have hfull : PythonCodeValidator.dangerousModuleError m ∈
          (PythonCodeValidator.FORBIDDEN_KEYWORDS.filterMap (fun kw =>
            if PyStr.contains code kw then some (PythonCodeValidator.forbiddenKeywordError kw)
            else none)) ++
          (PythonCodeValidator.DANGEROUS_MODULES.filterMap (fun m =>
            if PyStr.contains code m then some (PythonCodeValidator.dangerousModuleError m)
            else none)) ++
          (if PyStr.contains (PyStr.lower code) "with "
            then [PythonCodeValidator.withStatementError] else []) ++
          (match parse code with
            | some e => [PythonCodeValidator.syntaxErrorMsg e]
            | none => []) := by
        simp [hmem]
      exact isEmpty_eq_false_of_mem hfull

/-- Witness for C10: `eval(` inside a comment and `WITH` inside a string
literal both trip the substring screen on otherwise valid code. -/
theorem C10_witness :
    PyStr.contains pyEvalInComment "eval(" = true ∧
    (PythonCodeValidator.validate pyEvalInComment parseOk).is_valid = false ∧
    PyStr.contains (PyStr.lower pyWithFalsePositive) "with " = true ∧
    (PythonCodeValidator.validate pyWithFalsePositive parseOk).is_valid = false :=
  ⟨by decide,
   C10_denylist_is_substring_screening.1 pyEvalInComment parseOk "eval(" (by decide) (by decide),
   by decide,
   C10_denylist_is_substring_screening.2.2.1 pyWithFalsePositive parseOk (by decide)⟩

/-- Invariant of the Python retry loop: entered at call index `c ≥ 1` with the
previous (invalid) result being attempt `c-1` and all earlier attempts
invalid, it makes between 0 and `r` further calls, returns the attempt of its
last call, keeps every non-final attempt invalid, and stops early only on a
valid result. -/
theorem python_retryLoop_spec
    (predict : Nat → Option String → PythonPrediction)
    (parse : String → Option PythonCodeValidator.PySyntaxError) :
    ∀ (r c : Nat) (prev : PythonGenerationResult), 1 ≤ c →
      prev = PythonDiagramsGenerator.attempt predict parse (c - 1) →
      prev.is_valid = false →
      (∀ i, i + 1 < c → (PythonDiagramsGenerator.attempt predict parse i).is_valid = false) →
      c ≤ (PythonDiagramsGenerator.retryLoop predict parse prev c r).2 ∧
        (PythonDiagramsGenerator.retryLoop predict parse prev c r).2 ≤ c + r ∧
        (PythonDiagramsGenerator.retryLoop predict parse prev c r).1 =
          PythonDiagramsGenerator.attempt predict parse
            ((PythonDiagramsGenerator.retryLoop predict parse prev c r).2 - 1) ∧
        (∀ i, i + 1 < (PythonDiagramsGenerator.retryLoop predict parse prev c r).2 →
          (PythonDiagramsGenerator.attempt predict parse i).is_valid = false) ∧
        ((PythonDiagramsGenerator.retryLoop predict parse prev c r).1.is_valid = true ∨
          (PythonDiagramsGenerator.retryLoop predict parse prev c r).2 = c + r) := by
  intro r
  induction r with
  | zero =>
    intro c prev hc hprev hinv hall
    simp only [PythonDiagramsGenerator.retryLoop]
    exact ⟨Nat.le_refl c, Nat.le_refl c, hprev, hall, Or.inr rfl⟩
  | succ r ih =>
    intro c prev hc hprev hinv hall
    have hc1 : c - 1 + 1 = c := Nat.succ_pred_eq_of_pos hc
    have hatt : PythonDiagramsGenerator.forward parse
        (predict c (some prev.validation_result.get_feedback)) =
        PythonDiagramsGenerator.attempt predict parse c := by
      conv_rhs => rw [← hc1]
      rw [PythonDiagramsGenerator.attempt, hc1, ← hprev]
    have hall' : ∀ i, i + 1 < c + 1 →
        (PythonDiagramsGenerator.attempt predict parse i).is_valid = false := by
      intro i hi
      rcases Nat.lt_or_ge (i + 1) c with h | h
      · exact hall i h
      · have : i = c - 1 := by omega
        rw [this, ← hprev]
        exact hinv
    simp only [PythonDiagramsGenerator.retryLoop, hatt]
    cases hv : (PythonDiagramsGenerator.attempt predict parse c).is_valid with
    | true =>
      rw [if_pos rfl]
      exact ⟨Nat.le_succ c, by omega, by simp, hall', Or.inl hv⟩
    | false =>
      rw [if_neg (by simp)]
      have hres := ih (c + 1) (PythonDiagramsGenerator.attempt predict parse c)
        (by omega) (by simp) hv hall'
      refine ⟨by omega, by omega, hres.2.2.1, hres.2.2.2.1, ?_⟩
      rcases hres.2.2.2.2 with h | h
      · exact Or.inl h
      · exact Or.inr (by omega)

/-- Full behaviour of `PythonDiagramsGenerator.generate_with_retry`: between 1
and `1 + max_retries` forward calls, the returned value is the last attempt,
every attempt before the last is invalid (so it stops at the first success),
and it runs to the full budget unless a valid result appears. -/
theorem python_generate_with_retry_spec
    (predict : Nat → Option String → PythonPrediction)
    (parse : String → Option PythonCodeValidator.PySyntaxError) (n : Nat) :
    1 ≤ (PythonDiagramsGenerator.generate_with_retry predict parse n).2 ∧
      (PythonDiagramsGenerator.generate_with_retry predict parse n).2 ≤ n + 1 ∧
      (PythonDiagramsGenerator.generate_with_retry predict parse n).1 =
        PythonDiagramsGenerator.attempt predict parse
          ((PythonDiagramsGenerator.generate_with_retry predict parse n).2 - 1) ∧
      (∀ i, i + 1 < (PythonDiagramsGenerator.generate_with_retry predict parse n).2 →
        (PythonDiagramsGenerator.attempt predict parse i).is_valid = false) ∧
      ((PythonDiagramsGenerator.generate_with_retry predict parse n).1.is_valid = true ∨
        (PythonDiagramsGenerator.generate_with_retry predict parse n).2 = n + 1) := by
  have h0 : PythonDiagramsGenerator.forward parse (predict 0 none) =
      PythonDiagramsGenerator.attempt predict parse 0 := rfl
  unfold PythonDiagramsGenerator.generate_with_retry
  simp only [h0]
  cases hv : (PythonDiagramsGenerator.attempt predict parse 0).is_valid with
  | true =>
    rw [if_pos rfl]
    exact ⟨Nat.le_refl 1, by omega, by simp, by omega, Or.inl hv⟩
  | false =>
    rw [if_neg (by simp)]
    have hres := python_retryLoop_spec predict parse n 1
      (PythonDiagramsGenerator.attempt predict parse 0) (Nat.le_refl 1) (by simp) hv
      (by omega)
    exact ⟨hres.1, by omega, hres.2.2.1, hres.2.2.2.1, by
      rcases hres.2.2.2.2 with h | h
      · exact Or.inl h
      · exact Or.inr (by omega)⟩

/-- Invariant of the Mermaid retry loop, identical in structure to the Python
one. -/
theorem mermaid_retryLoop_spec
    (predict : Nat → Option String → MermaidPrediction) :
    ∀ (r c : Nat) (prev : MermaidGenerationResult), 1 ≤ c →
      prev = MermaidGenerator.attempt predict (c - 1) →
      prev.is_valid = false →
      (∀ i, i + 1 < c → (MermaidGenerator.attempt predict i).is_valid = false) →
      c ≤ (MermaidGenerator.retryLoop predict prev c r).2 ∧
        (MermaidGenerator.retryLoop predict prev c r).2 ≤ c + r ∧
        (MermaidGenerator.retryLoop predict prev c r).1 =
          MermaidGenerator.attempt predict
            ((MermaidGenerator.retryLoop predict prev c r).2 - 1) ∧
        (∀ i, i + 1 < (MermaidGenerator.retryLoop predict prev c r).2 →
          (MermaidGenerator.attempt predict i).is_valid = false) ∧
        ((MermaidGenerator.retryLoop predict prev c r).1.is_valid = true ∨
          (MermaidGenerator.retryLoop predict prev c r).2 = c + r) := by
  intro r
  induction r with
  | zero =>
    intro c prev hc hprev hinv hall
    simp only [MermaidGenerator.retryLoop]
    exact ⟨Nat.le_refl c, Nat.le_refl c, hprev, hall, Or.inr rfl⟩
  | succ r ih =>
    intro c prev hc hprev hinv hall
    have hc1 : c - 1 + 1 = c := Nat.succ_pred_eq_of_pos hc
    have hatt : MermaidGenerator.forward
        (predict c (some prev.validation_result.get_feedback)) =
        MermaidGenerator.attempt predict c := by
      conv_rhs => rw [← hc1]
      rw [MermaidGenerator.attempt, hc1, ← hprev]
    have hall' : ∀ i, i + 1 < c + 1 →
        (MermaidGenerator.attempt predict i).is_valid = false := by
      intro i hi
      rcases Nat.lt_or_ge (i + 1) c with h | h
      · exact hall i h
      · have : i = c - 1 := by omega
        rw [this, ← hprev]
        exact hinv
    simp only [MermaidGenerator.retryLoop, hatt]
    cases hv : (MermaidGenerator.attempt predict c).is_valid with
    | true =>
      rw [if_pos rfl]
      exact ⟨Nat.le_succ c, by omega, by simp, hall', Or.inl hv⟩
    | false =>
      rw [if_neg (by simp)]
      have hres := ih (c + 1) (MermaidGenerator.attempt predict c)
        (by omega) (by simp) hv hall'
      refine ⟨by omega, by omega, hres.2.2.1, hres.2.2.2.1, ?_⟩
      rcases hres.2.2.2.2 with h | h
      · exact Or.inl h
      · exact Or.inr (by omega)

/-- Full behaviour of `MermaidGenerator.generate_with_retry`, as for the
Python generator. -/
theorem mermaid_generate_with_retry_spec
    (predict : Nat → Option String → MermaidPrediction) (n : Nat) :
    1 ≤ (MermaidGenerator.generate_with_retry predict n).2 ∧
      (MermaidGenerator.generate_with_retry predict n).2 ≤ n + 1 ∧
      (MermaidGenerator.generate_with_retry predict n).1 =
        MermaidGenerator.attempt predict
          ((MermaidGenerator.generate_with_retry predict n).2 - 1) ∧
      (∀ i, i + 1 < (MermaidGenerator.generate_with_retry predict n).2 →
        (MermaidGenerator.attempt predict i).is_valid = false) ∧
      ((MermaidGenerator.generate_with_retry predict n).1.is_valid = true ∨
        (MermaidGenerator.generate_with_retry predict n).2 = n + 1) := by
  have h0 : MermaidGenerator.forward (predict 0 none) =
      MermaidGenerator.attempt predict 0 := rfl
  unfold MermaidGenerator.generate_with_retry
  simp only [h0]
  cases hv : (MermaidGenerator.attempt predict 0).is_valid with
  | true =>
    rw [if_pos rfl]
    exact ⟨Nat.le_refl 1, by omega, by simp, by omega, Or.inl hv⟩
  | false =>
    rw [if_neg (by simp)]
    have hres := mermaid_retryLoop_spec predict n 1
      (MermaidGenerator.attempt predict 0) (Nat.le_refl 1) (by simp) hv (by omega)
    exact ⟨hres.1, by omega, hres.2.2.1, hres.2.2.2.1, by
      rcases hres.2.2.2.2 with h | h
      · exact Or.inl h
      · exact Or.inr (by omega)⟩

/-- C2: for every LM oracle and `max_retries = n ≥ 0`, `generate_with_retry`
of both generators makes at least 1 and at most `1 + n` forward calls, never
fails (it is a total function returning a result), returns the result of the
last attempt performed even when invalid, stops at the first valid attempt
(every non-final attempt is invalid), and exhausts the budget only when no
attempt validated. -/
theorem C2_generate_with_retry_bound :
    (∀ (predict : Nat → Option String → PythonPrediction)
        (parse : String → Option PythonCodeValidator.PySyntaxError) (n : Nat),
      1 ≤ (PythonDiagramsGenerator.generate_with_retry predict parse n).2 ∧
        (PythonDiagramsGenerator.generate_with_retry predict parse n).2 ≤ n + 1 ∧
        (PythonDiagramsGenerator.generate_with_retry predict parse n).1 =
          PythonDiagramsGenerator.attempt predict parse
            ((PythonDiagramsGenerator.generate_with_retry predict parse n).2 - 1) ∧
        (∀ i, i + 1 < (PythonDiagramsGenerator.generate_with_retry predict parse n).2 →
          (PythonDiagramsGenerator.attempt predict parse i).is_valid = false) ∧
        ((PythonDiagramsGenerator.generate_with_retry predict parse n).1.is_valid = true ∨
          (PythonDiagramsGenerator.generate_with_retry predict parse n).2 = n + 1)) ∧
    (∀ (predict : Nat → Option String → MermaidPrediction) (n : Nat),
      1 ≤ (MermaidGenerator.generate_with_retry predict n).2 ∧
        (MermaidGenerator.generate_with_retry predict n).2 ≤ n + 1 ∧
        (MermaidGenerator.generate_with_retry predict n).1 =
          MermaidGenerator.attempt predict
            ((MermaidGenerator.generate_with_retry predict n).2 - 1) ∧
        (∀ i, i + 1 < (MermaidGenerator.generate_with_retry predict n).2 →
          (MermaidGenerator.attempt predict i).is_valid = false) ∧
        ((MermaidGenerator.generate_with_retry predict n).1.is_valid = true ∨
          (MermaidGenerator.generate_with_retry predict n).2 = n + 1)) :=
  ⟨python_generate_with_retry_spec, mermaid_generate_with_retry_spec⟩

/-- Witness for C2: with an always-invalid Python oracle all `1 + 2` attempts
run and each non-final one is invalid; with a valid Mermaid oracle the call
count still respects the bound. -/
theorem C2_witness :
    (PythonDiagramsGenerator.generate_with_retry predInvalidPy parseOk 2).2 ≤ 2 + 1 ∧
    (PythonDiagramsGenerator.attempt predInvalidPy parseOk 0).is_valid = false ∧
    (MermaidGenerator.generate_with_retry predValidMm 2).2 ≤ 2 + 1 :=
  ⟨(C2_generate_with_retry_bound.1 predInvalidPy parseOk 2).2.1,
   (C2_generate_with_retry_bound.1 predInvalidPy parseOk 2).2.2.2.1 0 (by decide),
   (C2_generate_with_retry_bound.2 predValidMm 2).2.1⟩

/-- C4 (amended): when the classification call succeeds, a lowercased label
outside the known routing keywords dispatches `DiagramRouter` to the fallback
agent — a dialect agent is reached only through one of its keywords — and
`DiagramRouterModule` rejects a label outside its closed set with a
validation error rather than silently picking a dialect; but a failure of the
classification call itself propagates out of both routers instead of being
converted to a Clarify route. -/
theorem C4_router_unknown_label_falls_back :
    (∀ label : String, DiagramRouter.lookupKeyword (PyStr.lower label) = none →
      DiagramRouter.forward (Except.ok label) = Except.ok "fallback") ∧
    (∀ (label tool : String), DiagramRouter.forward (Except.ok label) = Except.ok tool →
      tool = "fallback" ∨ DiagramRouter.lookupKeyword (PyStr.lower label) = some tool) ∧
    (∀ e : String, DiagramRouter.forward (Except.error e) = Except.error e) ∧
    (∀ p : RouterPrediction, DiagramRouterModule.parseToolChoice p.tool_choice = none →
      DiagramRouterModule.forward (Except.ok p) =
        Except.error ("validation error: tool_choice must be one of python_diagrams, " ++
          "mermaid, clarify; got " ++ p.tool_choice)) ∧
    (∀ e : String, DiagramRouterModule.forward (Except.error e) = Except.error e) := by
  refine ⟨?_, ?_, fun e => rfl, ?_, fun e => rfl⟩
  · intro label h
    unfold DiagramRouter.forward
    simp [h]
  · intro label tool h
    unfold DiagramRouter.forward at h
    cases hl : DiagramRouter.lookupKeyword (PyStr.lower label) with
    | none =>
      left
      simp [hl] at h
      exact h.symm
    | some t =>
      right
      simp [hl] at h
      exact congrArg some h
  · intro p h
    unfold DiagramRouterModule.forward
    simp [h]

/-- Witness for C4: an unrecognized request label routes to the fallback
agent, and an out-of-set `tool_choice` is rejected by the module router. -/
theorem C4_witness :
    DiagramRouter.forward (Except.ok "asdfgh") = Except.ok "fallback" ∧
    DiagramRouterModule.forward
        (Except.ok { tool_choice := "graphviz", reasoning := "r",
                     clarification_question := none }) =
      Except.error ("validation error: tool_choice must be one of python_diagrams, " ++
        "mermaid, clarify; got " ++ "graphviz") :=
  ⟨C4_router_unknown_label_falls_back.1 "asdfgh" (by decide),
   C4_router_unknown_label_falls_back.2.2.2.1
     { tool_choice := "graphviz", reasoning := "r", clarification_question := none } rfl⟩

/-- Counterexample for C4 as stated: a failing classification call is not
treated as a Clarify/fallback route; the error propagates unchanged out of
`DiagramRouter.forward`. -/
theorem C4_counterexample :
    DiagramRouter.forward (Except.error "classification call failed") =
      Except.error "classification call failed" ∧
    DiagramRouter.forward (Except.error "classification call failed") ≠
      Except.ok "fallback" := by
  constructor
  · rfl
  · intro h
    cases h

namespace PromptSerialization

/-- `decodeList` inverts an elementwise encoder that decodes pointwise. -/
theorem decodeList_map {α : Type} (dec : Json → Option α) (enc : α → Json)
    (l : List α) (h : ∀ x ∈ l, dec (enc x) = some x) :
    decodeList dec (l.map enc) = some l := by
  induction l with
  | nil => rfl
  | cons x t ih =>
    have hx := h x (List.mem_cons_self x t)
    have ht := ih fun y hy => h y (List.mem_cons_of_mem x hy)
    simp [decodeList, hx, ht]

/-- `decodePairs` inverts a pairwise encoder that decodes pointwise. -/
theorem decodePairs_map {α : Type} (dec : String × Json → Option α)
    (enc : α → String × Json) (l : List α) (h : ∀ x ∈ l, dec (enc x) = some x) :
    decodePairs dec (l.map enc) = some l := by
  induction l with
  | nil => rfl
  | cons x t ih =>
    have hx := h x (List.mem_cons_self x t)
    have ht := ih fun y hy => h y (List.mem_cons_of_mem x hy)
    simp [decodePairs, hx, ht]

theorem decodeContent_encodeContent (c : ContentBlock) :
    decodeContent (encodeContent c) = some c := by
  cases c with
  | text s => rfl

theorem decodeInvocation_encodeInvocation (i : ToolInvocation) :
    decodeInvocation (encodeInvocation i) = some i := by
  have h : decodePairs decodeStrPair (i.arguments.map fun kv => (kv.1, Json.str kv.2)) =
      some i.arguments := by
    have := decodePairs_map decodeStrPair (fun kv => (kv.1, Json.str kv.2)) i.arguments
      (fun x _ => rfl)
    simpa using this
  simp [encodeInvocation, encodeStrPairs, decodeInvocation, h]

theorem decodeResult_encodeResult (r : ToolResult) :
    decodeResult (encodeResult r) = some r := by
  have h := decodeList_map decodeContent encodeContent r.content
    (fun x _ => decodeContent_encodeContent x)
  simp [encodeResult, decodeResult, h]

theorem decodeTurn_encodeTurn (t : Turn) :
    decodeTurn (encodeTurn t) = some t := by
  have hrole : decodeRole (encodeRole t.role) = some t.role := by
    cases t.role <;> rfl
  have htext : decodeText (encodeText t.text) = some t.text := by
    cases t.text <;> rfl
  have hcalls : decodePairs
      (fun kv => (decodeInvocation kv.2).map fun i => (kv.1, i))
      (t.tool_calls.map fun kv => (kv.1, encodeInvocation kv.2)) = some t.tool_calls := by
    have := decodePairs_map
      (fun kv => (decodeInvocation kv.2).map fun i => (kv.1, i))
      (fun kv => (kv.1, encodeInvocation kv.2)) t.tool_calls
      (fun kv _ => by simp [decodeInvocation_encodeInvocation kv.2])
    simpa using this
  have hresults : decodePairs
      (fun kv => (decodeResult kv.2).map fun x => (kv.1, x))
      (t.tool_results.map fun kv => (kv.1, encodeResult kv.2)) = some t.tool_results := by
    have := decodePairs_map
      (fun kv => (decodeResult kv.2).map fun x => (kv.1, x))
      (fun kv => (kv.1, encodeResult kv.2)) t.tool_results
      (fun kv _ => by simp [decodeResult_encodeResult kv.2])
    simpa using this
  simp [encodeTurn, decodeTurn, hrole, htext, hcalls, hresults]

end PromptSerialization

/-- C9: the history serialization round-trips losslessly —
`from_json (to_json h) = some h` for every history (roles, free text, tool
calls and tool results with nested content blocks, order preserved). The
serializer pair is modelled from the spec because fast_agent's
`prompt_serialization` module is an external dependency, not part of this
repository's sources. -/
theorem C9_history_roundtrip (h : List PromptSerialization.Turn) :
    PromptSerialization.from_json (PromptSerialization.to_json h) = some h := by
  unfold PromptSerialization.from_json PromptSerialization.to_json
  exact PromptSerialization.decodeList_map PromptSerialization.decodeTurn
    PromptSerialization.encodeTurn h
    (fun t _ => PromptSerialization.decodeTurn_encodeTurn t)

/-- C1: whenever the routed generator's final result is invalid, the
orchestrator raises `CodeGenerationError` carrying the validator's error list
and performs no external tool call; conversely every tool invocation the
orchestrator performs belongs to a run whose routed generation validated.
The first two conclusions are conditional on the history-formatting step
succeeding (when it raises, no generation result exists and the run fails
before routing); the no-tool-call invariant is unconditional — the crash
path performs no invocation either. -/
theorem C1_validation_failure_never_reaches_tool
    (routing : RouterResult)
    (pyPredict : Nat → Option String → PythonPrediction)
    (mmPredict : Nat → Option String → MermaidPrediction)
    (parse : String → Option PythonCodeValidator.PySyntaxError)
    (prev : Option String)
    (loads : String → Option Json)
    (pyStr : Json → String)
    (fj : String → Except String (List PromptSerialization.Turn))
    (mcp : List PromptSerialization.Turn → ToolCallSpec →
      Except String (List (String × String) × String)) :
    (∀ ctx, format_conversation_history loads pyStr prev = Except.ok ctx →
      routing.tool_choice = ToolChoice.python_diagrams →
      (PythonDiagramsGenerator.generate_with_retry pyPredict parse 2).1.is_valid = false →
      AgentOrchestrator.agent routing pyPredict mmPredict parse prev loads pyStr fj mcp =
        (Except.error (AgentError.codeGenerationError
          "Failed to generate valid Python code after retries"
          (PythonDiagramsGenerator.generate_with_retry pyPredict
            parse 2).1.validation_result.errors), [])) ∧
    (∀ ctx, format_conversation_history loads pyStr prev = Except.ok ctx →
      routing.tool_choice = ToolChoice.mermaid →
      (MermaidGenerator.generate_with_retry mmPredict 2).1.is_valid = false →
      AgentOrchestrator.agent routing pyPredict mmPredict parse prev loads pyStr fj mcp =
        (Except.error (AgentError.codeGenerationError
          "Failed to generate valid Mermaid code after retries"
          (MermaidGenerator.generate_with_retry mmPredict 2).1.validation_result.errors), [])) ∧
    (∀ spec,
      spec ∈ (AgentOrchestrator.agent routing pyPredict mmPredict parse prev loads pyStr fj mcp).2 →
      (routing.tool_choice = ToolChoice.python_diagrams ∧
        (PythonDiagramsGenerator.generate_with_retry pyPredict parse 2).1.is_valid = true) ∨
      (routing.tool_choice = ToolChoice.mermaid ∧
        (MermaidGenerator.generate_with_retry mmPredict 2).1.is_valid = true)) := by
  refine ⟨?_, ?_, ?_⟩
  · intro ctx hfmt h hv
    simp [AgentOrchestrator.agent, hfmt, h, hv]
  · intro ctx hfmt h hv
    simp [AgentOrchestrator.agent, hfmt, h, hv]
  · intro spec hmem
    cases hfmt : format_conversation_history loads pyStr prev with
    | error e => simp [AgentOrchestrator.agent, hfmt] at hmem
    | ok ctx =>
      cases htc : routing.tool_choice with
      | clarify => simp [AgentOrchestrator.agent, hfmt, htc] at hmem
      | python_diagrams =>
        cases hv : (PythonDiagramsGenerator.generate_with_retry pyPredict parse 2).1.is_valid with
        | true => exact Or.inl ⟨htc ▸ rfl, rfl⟩
        | false => simp [AgentOrchestrator.agent, hfmt, htc, hv] at hmem
      | mermaid =>
        cases hv : (MermaidGenerator.generate_with_retry mmPredict 2).1.is_valid with
        | true => exact Or.inr ⟨htc ▸ rfl, rfl⟩
        | false => simp [AgentOrchestrator.agent, hfmt, htc, hv] at hmem

/-- Witness for C1: an always-invalid Python generation makes the
orchestrator raise `CodeGenerationError` with an empty invocation list, and
the tool-invariant holds at a run whose generation validated. -/
theorem C1_witness :
    AgentOrchestrator.agent routingPy predInvalidPy predInvalidMm parseOk none
        loadsMalformedHistory pyStrDefault fromJsonFail mcpOk =
      (Except.error (AgentError.codeGenerationError
        "Failed to generate valid Python code after retries"
        (PythonDiagramsGenerator.generate_with_retry predInvalidPy
          parseOk 2).1.validation_result.errors), []) ∧
    ((routingPy.tool_choice = ToolChoice.python_diagrams ∧
        (PythonDiagramsGenerator.generate_with_retry predValidPy parseOk 2).1.is_valid = true) ∨
      (routingPy.tool_choice = ToolChoice.mermaid ∧
        (MermaidGenerator.generate_with_retry predInvalidMm 2).1.is_valid = true)) :=
  ⟨(C1_validation_failure_never_reaches_tool routingPy predInvalidPy predInvalidMm
      parseOk none loadsMalformedHistory pyStrDefault fromJsonFail mcpOk).1 "" rfl rfl
      (by decide),
   (C1_validation_failure_never_reaches_tool routingPy predValidPy predInvalidMm
      parseOk none loadsMalformedHistory pyStrDefault fromJsonFail mcpOk).2.2
      { tool_name := "draw_technical_diagram", title := "Web App", code := pyValidCode }
      (by decide)⟩

/-- C8 (code bug): the spec and claim require a malformed prior history to be
recovered locally, and the orchestrators do wrap `from_json` in try/except
(a json-undecodable string loads as the empty history, conjuncts 3-4); but
the unguarded `format_conversation_history` call catches only
`JSONDecodeError`/`TypeError`, so the JSON-parseable malformed history "[5]"
raises an uncaught `AttributeError` at `entry.get` and fails the whole turn
before routing (conjuncts 1-2), contradicting the claim. -/
theorem C8_malformed_history_fails_turn :
    format_conversation_history loadsMalformedHistory pyStrDefault (some "[5]") =
      Except.error () ∧
    AgentOrchestrator.agent routingPy predValidPy predInvalidMm parseOk (some "[5]")
        loadsMalformedHistory pyStrDefault fromJsonFail mcpOk =
      (Except.error AgentError.attributeError, []) ∧
    format_conversation_history loadsMalformedHistory pyStrDefault (some "not json") =
      Except.ok "" ∧
    AgentOrchestrator.loadPreviousHistory fromJsonFail (some "not json") = [] :=
  ⟨rfl, rfl, rfl, rfl⟩

/-- C3 (amended): the extraction step scans the resolved tool-result strings
in creation order and returns the parsed content of the EARLIEST entry that
does not start with "Error" and parses as JSON containing a "uri" key;
entries starting with "Error" or without a parsed "uri" key are skipped and
never returned, and if no entry matches the scan yields nothing. (In
particular, with exactly one matching entry, exactly that one is returned.) -/
theorem C3_extraction_scan (parseJson : String → Option Json) :
    (∀ (entry : String × String) (rest : List (String × String)),
      skipsEntry parseJson entry = true →
      extract_tool_result_from_executed parseJson (entry :: rest) =
        extract_tool_result_from_executed parseJson rest) ∧
    (∀ results : List (String × String),
      (∀ entry ∈ results, skipsEntry parseJson entry = true) →
      extract_tool_result_from_executed parseJson results = Except.ok none) ∧
    (∀ (pre : List (String × String)) (entry : String × String)
        (post : List (String × String)) (j : Json),
      (∀ e ∈ pre, skipsEntry parseJson e = true) →
      PyStr.startsWith entry.2 "Error" = false →
      parseJson entry.2 = some j →
      uriMembership j = Except.ok true →
      extract_tool_result_from_executed parseJson (pre ++ entry :: post) =
        Except.ok (some j)) := by
  have hskip : ∀ (entry : String × String) (rest : List (String × String)),
      skipsEntry parseJson entry = true →
      extract_tool_result_from_executed parseJson (entry :: rest) =
        extract_tool_result_from_executed parseJson rest := by
    intro entry rest h
    obtain ⟨id, s⟩ := entry
    by_cases hs : PyStr.startsWith s "Error" = true
    · simp [extract_tool_result_from_executed, hs]
    · have hs' : PyStr.startsWith s "Error" = false := by
        rwa [Bool.not_eq_true] at hs
      simp only [skipsEntry, hs', Bool.false_or] at h
      cases hp : parseJson s with
      | none => simp [extract_tool_result_from_executed, hs', hp]
      | some j =>
        simp only [hp] at h
        cases hm : uriMembership j with
        | error u =>
          rw [hm] at h
          simp at h
        | ok b =>
          cases b with
          | false => simp [extract_tool_result_from_executed, hs', hp, hm]
          | true =>
            rw [hm] at h
            simp at h
  have hnone : ∀ results : List (String × String),
      (∀ entry ∈ results, skipsEntry parseJson entry = true) →
      extract_tool_result_from_executed parseJson results = Except.ok none := by
    intro results
    induction results with
    | nil => intro _; rfl
    | cons e t ih =>
      intro hall
      rw [hskip e t (hall e (List.mem_cons_self e t))]
      exact ih fun x hx => hall x (List.mem_cons_of_mem e hx)
  refine ⟨hskip, hnone, ?_⟩
  intro pre
  induction pre with
  | nil =>
    intro entry post j _ hs hp hm
    obtain ⟨id, s⟩ := entry
    simp only at hs hp
    simp [extract_tool_result_from_executed, hs, hp, hm]
  | cons e t ih =>
    intro entry post j hall hs hp hm
    rw [List.cons_append, hskip e (t ++ entry :: post) (hall e (List.mem_cons_self e t))]
    exact ih entry post j (fun x hx => hall x (List.mem_cons_of_mem e hx)) hs hp hm

/-- Witness for C3: an errored first entry is skipped and the single
uri-bearing result is returned. -/
theorem C3_witness :
    extract_tool_result_from_executed parseToolResults
        [("call_0", "Error calling tool: boom"), ("call_1", sJsonFirst)] =
      Except.ok (some jsonUriFirst) :=
  (C3_extraction_scan parseToolResults).2.2 [("call_0", "Error calling tool: boom")]
    ("call_1", sJsonFirst) [] jsonUriFirst (by decide) (by decide) rfl rfl

/-- Counterexample for C3 as stated: with two resolved results that both
parse to JSON objects carrying a "uri" key, the extraction step returns the
EARLIEST one in creation order, not the most recent: the second (most recent)
entry also matches yet its distinct uri is not the one returned. -/
theorem C3_counterexample :
    extract_tool_result_from_executed parseToolResults
        [("call_0", sJsonFirst), ("call_1", sJsonSecond)] =
      Except.ok (some jsonUriFirst) ∧
    parseToolResults sJsonSecond = some jsonUriSecond ∧
    uriMembership jsonUriSecond = Except.ok true ∧
    PyStr.startsWith sJsonSecond "Error" = false ∧
    "gs://bucket/first.png" ≠ "gs://bucket/second.png" :=
  ⟨rfl, rfl, rfl, by decide, by decide⟩

/-- Witness for C6: a well-formed flowchart is accepted; prose with no
diagram-kind declaration is rejected with the kinds-listing error. -/
theorem C6_witness :
    (MermaidCodeValidator.validate "flowchart TD\n  A --> B").is_valid = true ∧
    MermaidCodeValidator.validate "hello world" =
      { is_valid := false, errors := [MermaidCodeValidator.typeDeclarationError],
        warnings := [] } := by
  constructor
  · exact (((C6_mermaid_validate_structure "flowchart TD\n  A --> B").2
      "flowchart TD" ["A --> B"] (by decide) (by decide)).2.1 "flowchart" (by decide)).1
  · exact (((C6_mermaid_validate_structure "hello world").2
      "hello world" [] (by decide) (by decide)).1 (by decide))
